import Mathlib

/-!
Verification of the two automation scripts of the `quakeworx_workshop_pycsep`
repository: `build.py` (composes and runs a docker build command with a
date-derived build argument, then a re-tag command) and `push.py` (runs a
fixed docker push command).

The embedding is a shallow one: each script is a pure Lean function from its
ambient inputs (the status values returned by the shell for each `os.system`
call, the process argument vector and the process environment, and — for
`build.py` — the current month and day read from `datetime.datetime.today()`)
to its observable behaviour: the ordered trace of printed lines and executed
commands, and the process exit code.
-/

set_option maxRecDepth 100000

namespace QuakeworxWorkshop

/-- One observable event of a script run: a line written to standard output
by `print`, or an `os.system` invocation together with the status value the
shell returned for that command. -/
inductive Event where
  | print (line : String)
  | system (cmd : String) (ret : Int)
deriving DecidableEq, Repr

/-- The observable outcome of running one of the scripts: the ordered event
trace and the process exit code.  A Python script that runs to the end
without an uncaught exception exits with code 0; `os.system` returns the
shell status as an `int` and never raises on a failing command. -/
structure RunResult where
  trace : List Event
  exitCode : Nat
deriving DecidableEq, Repr

/-- Python `"%02d" % n`: the decimal digits of `n`, left-padded with `'0'`
to a minimum width of two characters (`build.py` line 12). -/
def fmt02 (n : Nat) : String :=
  let s := Nat.repr n
  String.mk (List.replicate (2 - s.length) '0') ++ s

/-- `build.py` line 12: `mdate="%02d%02d"%(month,day)`. -/
def mdate (month day : Nat) : String :=
  fmt02 month ++ fmt02 day

/-- `build.py` lines 15–17: the docker build command string; the three
quoted pieces of the source line continuation are concatenated and the
`%s` placeholder receives `mdate`. -/
def buildCmd (month day : Nat) : String :=
  "docker build --progress=plain --no-cache=false -f Dockerfile . -t pycsep_quakeworx_workshop " ++
  "--build-arg APP_UNAME=csepuser --build-arg APP_GRPNAME=csepuser " ++
  "--build-arg APP_UID=1000 --build-arg APP_GID=1000 --build-arg BDATE=" ++ mdate month day

/-- `build.py` line 21: the re-tag command string. -/
def tagCmd : String :=
  "docker tag pycsep_quakeworx_workshop sceccode/pycsep_quakeworx_workshop"

/-- `push.py` line 9: the push command string. -/
def pushCmd : String :=
  "docker push sceccode/pycsep_quakeworx_workshop"

/-- Python `print(a, b)`: the two arguments joined by the default separator,
a single space, forming the printed line. -/
def pyPrint2 (a b : String) : String :=
  a ++ " " ++ b

/-- `build.py`, whole script.  `os` gives the status the shell returns for
each command handed to `os.system`; `argv` and `env` are the process
argument vector and environment, which are in scope for any Python process
but which this script never reads; `month` and `day` come from
`datetime.datetime.today()`.  Lines 15–19 build and run the docker build
command (without printing it), lines 21–23 print and run the re-tag
command.  No status value is inspected, so the script always reaches its
end and the interpreter exits with code 0. -/
def runBuild (os : String → Int) (argv : List String)
    (env : String → Option String) (month day : Nat) : RunResult :=
  { trace := [Event.system (buildCmd month day) (os (buildCmd month day)),
              Event.print (pyPrint2 "Running: " tagCmd),
              Event.system tagCmd (os tagCmd)],
    exitCode := 0 }

/-- `push.py`, whole script: line 10 prints the command, line 11 runs it;
the status is not inspected and the interpreter exits with code 0. -/
def runPush (os : String → Int) (argv : List String)
    (env : String → Option String) : RunResult :=
  { trace := [Event.print (pyPrint2 "Running: " pushCmd),
              Event.system pushCmd (os pushCmd)],
    exitCode := 0 }

/-- The commands a run handed to `os.system`, in execution order. -/
def commandsRun (r : RunResult) : List String :=
  r.trace.filterMap fun e =>
    match e with
    | Event.system c _ => some c
    | Event.print _ => none

/-- The lines a run printed to standard output, in order. -/
def printedLines (r : RunResult) : List String :=
  r.trace.filterMap fun e =>
    match e with
    | Event.print l => some l
    | Event.system _ _ => none

/-- Specification-side rendering of a number zero-padded to exactly two
decimal digits, as the spec's `MMDD` notation reads for values below 100. -/
def twoDigits (n : Nat) : String :=
  if n < 10 then "0" ++ Nat.repr n else Nat.repr n

/-- A string contains `sub` as an exact (contiguous) substring. -/
def hasSubstr (s sub : String) : Prop :=
  ∃ a b, s = a ++ (sub ++ b)

theorem string_append_assoc (a b c : String) : a ++ b ++ c = a ++ (b ++ c) := by
  apply String.ext
  cases a; cases b; cases c
  simp [String.data_append, List.append_assoc]

theorem fmt02_eq_twoDigits : ∀ n : Nat, n ≤ 31 → fmt02 n = twoDigits n := by
  decide

example : fmt02 3 = "03" := by decide
example : fmt02 12 = "12" := by decide
example : mdate 3 7 = "0307" := by decide
example : mdate 12 31 = "1231" := by decide

theorem buildCmd_eq (month day : Nat) :
    buildCmd month day =
      "docker build --progress=plain --no-cache=false -f Dockerfile . -t pycsep_quakeworx_workshop --build-arg APP_UNAME=csepuser --build-arg APP_GRPNAME=csepuser --build-arg APP_UID=1000 --build-arg APP_GID=1000 --build-arg BDATE=" ++
        mdate month day := by
  have h : ("docker build --progress=plain --no-cache=false -f Dockerfile . -t pycsep_quakeworx_workshop " ++
      "--build-arg APP_UNAME=csepuser --build-arg APP_GRPNAME=csepuser " ++
      "--build-arg APP_UID=1000 --build-arg APP_GID=1000 --build-arg BDATE=" : String) =
      "docker build --progress=plain --no-cache=false -f Dockerfile . -t pycsep_quakeworx_workshop --build-arg APP_UNAME=csepuser --build-arg APP_GRPNAME=csepuser --build-arg APP_UID=1000 --build-arg APP_GID=1000 --build-arg BDATE=" := by
    decide
  rw [buildCmd.eq_def, h]

theorem mdate_eq_twoDigits (month day : Nat) (hm : month ≤ 31) (hd : day ≤ 31) :
    mdate month day = twoDigits month ++ twoDigits day := by
  rw [mdate.eq_def, fmt02_eq_twoDigits month hm, fmt02_eq_twoDigits day hd]

/-- C1: whatever status the shell returns for each executed command
(failures included), both utilities run to the end and exit with code 0;
no status value is inspected and no error reaches the caller. -/
theorem utilities_always_exit_zero (os : String → Int) (argv : List String)
    (env : String → Option String) (month day : Nat) :
    (runBuild os argv env month day).exitCode = 0 ∧
    (runPush os argv env).exitCode = 0 :=
  ⟨rfl, rfl⟩

/-- C2: for every month in 1..12 and day in 1..31, the composed build
command contains the exact substring `--build-arg BDATE=MMDD`, month and
day each zero-padded to two decimal digits. -/
theorem buildCmd_has_bdate_arg (month day : Nat)
    (hm1 : 1 ≤ month) (hm2 : month ≤ 12) (hd1 : 1 ≤ day) (hd2 : day ≤ 31) :
    hasSubstr (buildCmd month day)
      ("--build-arg BDATE=" ++ (twoDigits month ++ twoDigits day)) := by
  refine ⟨"docker build --progress=plain --no-cache=false -f Dockerfile . -t pycsep_quakeworx_workshop --build-arg APP_UNAME=csepuser --build-arg APP_GRPNAME=csepuser --build-arg APP_UID=1000 --build-arg APP_GID=1000 ",
    "", ?_⟩
  have h : ("docker build --progress=plain --no-cache=false -f Dockerfile . -t pycsep_quakeworx_workshop --build-arg APP_UNAME=csepuser --build-arg APP_GRPNAME=csepuser --build-arg APP_UID=1000 --build-arg APP_GID=1000 --build-arg BDATE=" : String) =
      "docker build --progress=plain --no-cache=false -f Dockerfile . -t pycsep_quakeworx_workshop --build-arg APP_UNAME=csepuser --build-arg APP_GRPNAME=csepuser --build-arg APP_UID=1000 --build-arg APP_GID=1000 " ++
      "--build-arg BDATE=" := by decide
  rw [buildCmd_eq, mdate_eq_twoDigits month day (by omega) hd2, h,
    String.append_empty, string_append_assoc]

theorem buildCmd_has_bdate_arg_witness :
    1 ≤ 3 ∧ 3 ≤ 12 ∧ 1 ≤ 7 ∧ 7 ≤ 31 ∧
    hasSubstr (buildCmd 3 7) ("--build-arg BDATE=" ++ (twoDigits 3 ++ twoDigits 7)) :=
  ⟨by decide, by decide, by decide, by decide,
    buildCmd_has_bdate_arg 3 7 (by decide) (by decide) (by decide) (by decide)⟩

/-- C3: for every month and day, the build command contains the four fixed
build arguments with their literal values; none of them depends on the
date. -/
theorem buildCmd_has_fixed_args (month day : Nat) :
    hasSubstr (buildCmd month day) ("--build-arg APP_UNAME=csepuser") ∧
    hasSubstr (buildCmd month day) ("--build-arg APP_GRPNAME=csepuser") ∧
    hasSubstr (buildCmd month day) ("--build-arg APP_UID=1000") ∧
    hasSubstr (buildCmd month day) ("--build-arg APP_GID=1000") := by
  refine ⟨⟨"docker build --progress=plain --no-cache=false -f Dockerfile . -t pycsep_quakeworx_workshop ",
      " --build-arg APP_GRPNAME=csepuser --build-arg APP_UID=1000 --build-arg APP_GID=1000 --build-arg BDATE=" ++
        mdate month day, ?_⟩,
    ⟨"docker build --progress=plain --no-cache=false -f Dockerfile . -t pycsep_quakeworx_workshop --build-arg APP_UNAME=csepuser ",
      " --build-arg APP_UID=1000 --build-arg APP_GID=1000 --build-arg BDATE=" ++
        mdate month day, ?_⟩,
    ⟨"docker build --progress=plain --no-cache=false -f Dockerfile . -t pycsep_quakeworx_workshop --build-arg APP_UNAME=csepuser --build-arg APP_GRPNAME=csepuser ",
      " --build-arg APP_GID=1000 --build-arg BDATE=" ++ mdate month day, ?_⟩,
    ⟨"docker build --progress=plain --no-cache=false -f Dockerfile . -t pycsep_quakeworx_workshop --build-arg APP_UNAME=csepuser --build-arg APP_GRPNAME=csepuser --build-arg APP_UID=1000 ",
      " --build-arg BDATE=" ++ mdate month day, ?_⟩⟩
  · have h : ("docker build --progress=plain --no-cache=false -f Dockerfile . -t pycsep_quakeworx_workshop --build-arg APP_UNAME=csepuser --build-arg APP_GRPNAME=csepuser --build-arg APP_UID=1000 --build-arg APP_GID=1000 --build-arg BDATE=" : String) =
        ("docker build --progress=plain --no-cache=false -f Dockerfile . -t pycsep_quakeworx_workshop " ++
          "--build-arg APP_UNAME=csepuser") ++
        " --build-arg APP_GRPNAME=csepuser --build-arg APP_UID=1000 --build-arg APP_GID=1000 --build-arg BDATE=" := by
      decide
    rw [buildCmd_eq, h]
    simp only [string_append_assoc]
  · have h : ("docker build --progress=plain --no-cache=false -f Dockerfile . -t pycsep_quakeworx_workshop --build-arg APP_UNAME=csepuser --build-arg APP_GRPNAME=csepuser --build-arg APP_UID=1000 --build-arg APP_GID=1000 --build-arg BDATE=" : String) =
        ("docker build --progress=plain --no-cache=false -f Dockerfile . -t pycsep_quakeworx_workshop --build-arg APP_UNAME=csepuser " ++
          "--build-arg APP_GRPNAME=csepuser") ++
        " --build-arg APP_UID=1000 --build-arg APP_GID=1000 --build-arg BDATE=" := by
      decide
    rw [buildCmd_eq, h]
    simp only [string_append_assoc]
  · have h : ("docker build --progress=plain --no-cache=false -f Dockerfile . -t pycsep_quakeworx_workshop --build-arg APP_UNAME=csepuser --build-arg APP_GRPNAME=csepuser --build-arg APP_UID=1000 --build-arg APP_GID=1000 --build-arg BDATE=" : String) =
        ("docker build --progress=plain --no-cache=false -f Dockerfile . -t pycsep_quakeworx_workshop --build-arg APP_UNAME=csepuser --build-arg APP_GRPNAME=csepuser " ++
          "--build-arg APP_UID=1000") ++
        " --build-arg APP_GID=1000 --build-arg BDATE=" := by
      decide
    rw [buildCmd_eq, h]
    simp only [string_append_assoc]
  · have h : ("docker build --progress=plain --no-cache=false -f Dockerfile . -t pycsep_quakeworx_workshop --build-arg APP_UNAME=csepuser --build-arg APP_GRPNAME=csepuser --build-arg APP_UID=1000 --build-arg APP_GID=1000 --build-arg BDATE=" : String) =
        ("docker build --progress=plain --no-cache=false -f Dockerfile . -t pycsep_quakeworx_workshop --build-arg APP_UNAME=csepuser --build-arg APP_GRPNAME=csepuser --build-arg APP_UID=1000 " ++
          "--build-arg APP_GID=1000") ++
        " --build-arg BDATE=" := by
      decide
    rw [buildCmd_eq, h]
    simp only [string_append_assoc]

/-- C4: for every month in 1..12 and day in 1..31 and every shell/process
context, the first command the build utility executes is exactly the
prescribed docker build command line, with no extra or missing tokens. -/
theorem build_first_command_exact (os : String → Int) (argv : List String)
    (env : String → Option String) (month day : Nat)
    (hm1 : 1 ≤ month) (hm2 : month ≤ 12) (hd1 : 1 ≤ day) (hd2 : day ≤ 31) :
    (commandsRun (runBuild os argv env month day)).head? =
      some ("docker build --progress=plain --no-cache=false -f Dockerfile . -t pycsep_quakeworx_workshop --build-arg APP_UNAME=csepuser --build-arg APP_GRPNAME=csepuser --build-arg APP_UID=1000 --build-arg APP_GID=1000 --build-arg BDATE=" ++
        (twoDigits month ++ twoDigits day)) := by
  have h : (commandsRun (runBuild os argv env month day)).head? =
      some (buildCmd month day) := rfl
  rw [h, buildCmd_eq, mdate_eq_twoDigits month day (by omega) hd2]

theorem build_first_command_exact_witness :
    1 ≤ 12 ∧ 12 ≤ 12 ∧ 1 ≤ 31 ∧ 31 ≤ 31 ∧
    (commandsRun (runBuild (fun _ => 0) [] (fun _ => none) 12 31)).head? =
      some ("docker build --progress=plain --no-cache=false -f Dockerfile . -t pycsep_quakeworx_workshop --build-arg APP_UNAME=csepuser --build-arg APP_GRPNAME=csepuser --build-arg APP_UID=1000 --build-arg APP_GID=1000 --build-arg BDATE=" ++
        (twoDigits 12 ++ twoDigits 31)) :=
  ⟨by decide, by decide, by decide, by decide,
    build_first_command_exact (fun _ => 0) [] (fun _ => none) 12 31
      (by decide) (by decide) (by decide) (by decide)⟩

/-- C5: for every date and every shell outcome of the preceding build
command, the second command the build utility executes is exactly the
constant re-tag command. -/
theorem build_second_command_constant (os : String → Int) (argv : List String)
    (env : String → Option String) (month day : Nat) :
    (commandsRun (runBuild os argv env month day))[1]? =
      some ("docker tag pycsep_quakeworx_workshop sceccode/pycsep_quakeworx_workshop") :=
  rfl

/-- C6: on every invocation the push utility executes exactly one command,
the constant docker push command, independent of shell outcomes, arguments
and environment. -/
theorem push_commands_exact (os : String → Int) (argv : List String)
    (env : String → Option String) :
    commandsRun (runPush os argv env) =
      [("docker push sceccode/pycsep_quakeworx_workshop")] :=
  rfl

/-- C7: every run of the build utility executes exactly two commands, the
build command first and the re-tag command second, unconditionally and
with no other command issued. -/
theorem build_runs_exactly_two_commands (os : String → Int) (argv : List String)
    (env : String → Option String) (month day : Nat) :
    commandsRun (runBuild os argv env month day) = [buildCmd month day, tagCmd] :=
  rfl

/-- C8: on every invocation the push utility prints the command string to
standard output, prefixed with the text `Running: `, before executing it. -/
theorem push_prints_command_before_running (os : String → Int) (argv : List String)
    (env : String → Option String) :
    (runPush os argv env).trace =
      [Event.print ("Running: " ++ (" " ++ pushCmd)),
       Event.system pushCmd (os pushCmd)] := by
  simp only [runPush, pyPrint2, string_append_assoc]

/-- C9: in the build utility the re-tag command is printed, prefixed with
`Running: `, before it is executed, while the initial build command is
executed without being printed: the single printed line of the whole run
concerns the re-tag command only. -/
theorem build_prints_only_tag_command (os : String → Int) (argv : List String)
    (env : String → Option String) (month day : Nat) :
    (runBuild os argv env month day).trace =
      [Event.system (buildCmd month day) (os (buildCmd month day)),
       Event.print ("Running: " ++ (" " ++ tagCmd)),
       Event.system tagCmd (os tagCmd)] ∧
    printedLines (runBuild os argv env month day) =
      [("Running: " ++ (" " ++ tagCmd))] := by
  constructor
  · simp only [runBuild, pyPrint2, string_append_assoc]
  · simp only [runBuild, printedLines, pyPrint2, string_append_assoc,
      List.filterMap]

/-- C10: both utilities are deterministic functions of the date alone:
the commands, printed lines and exit code of a build run depend only on
month and day, and those of a push run are the same on any two runs;
shell statuses, argument vector and environment have no influence. -/
theorem observable_behaviour_deterministic (os os' : String → Int)
    (argv argv' : List String) (env env' : String → Option String)
    (month day : Nat) :
    commandsRun (runBuild os argv env month day) =
      commandsRun (runBuild os' argv' env' month day) ∧
    printedLines (runBuild os argv env month day) =
      printedLines (runBuild os' argv' env' month day) ∧
    (runBuild os argv env month day).exitCode =
      (runBuild os' argv' env' month day).exitCode ∧
    commandsRun (runPush os argv env) = commandsRun (runPush os' argv' env') ∧
    printedLines (runPush os argv env) = printedLines (runPush os' argv' env') ∧
    (runPush os argv env).exitCode = (runPush os' argv' env').exitCode :=
  ⟨rfl, rfl, rfl, rfl, rfl, rfl⟩

end QuakeworxWorkshop
